import Mathlib

/-!
Verification of the C-ABI boundary adapter
`examples_simple_create_and_verify_proof` from
`src/barretenberg/examples/c_bind.cpp`.

The adapter calls a four-step external proof workflow inside a
`try`/`catch (const std::exception &e)` block:

  auto ptrs  = examples::simple::create_builder_and_composer(
                   barretenberg::srs::get_crs_factory());
  auto proof = examples::simple::create_proof(ptrs);
  *valid     = examples::simple::verify_proof(ptrs, proof);
  examples::simple::delete_builder_and_composer(ptrs);
  return nullptr;            -- on success
  ...
  return e.what();           -- on a caught exception

We embed this shallowly as a pure function over an opaque description of the
behaviour of the external collaborators for one call (each collaborator call
either returns a value or raises an exception carrying its `what()` message).
The function yields the returned diagnostic (`Option String`, `none` models
the null pointer), the write performed through the `valid` out-parameter
(`Option Bool`, `none` when the write never executes), and the ordered trace
of boundary events issued to the external module.
-/

/-- Boundary events, one per external call the adapter issues, recorded in
program order.  `get_crs` is the evaluation of
`barretenberg::srs::get_crs_factory()`, `create_bc` the call to
`examples::simple::create_builder_and_composer`, `create_proof_ev` the call to
`examples::simple::create_proof`, `verify_proof_ev` the call to
`examples::simple::verify_proof`, and `delete_bc` the call to
`examples::simple::delete_builder_and_composer`.  An event is recorded when
the call is issued, whether or not that call raises. -/
inductive Event where
  | get_crs
  | create_bc
  | create_proof_ev
  | verify_proof_ev
  | delete_bc
  deriving DecidableEq, Repr

/-- Modelled from the spec: the external module `examples::simple` and the
global setup provider `barretenberg::srs::get_crs_factory` are not among the
visible sources, so their interface is taken from the adapter's call site and
from the spec.  A collaborator call either returns a value (`Except.ok`) or
raises a `std::exception` whose `what()` description is the carried string
(`Except.error`).  Per the spec, failures arise at the acquire/build/prove/
verify steps; the release step `delete_builder_and_composer` returns nothing
and has no failure mode of its own.  The types `Crs`, `Handle` and `Proof`
(the setup-parameter provider, the builder+composer pair, and the proof
artifact) are opaque to the adapter and kept abstract. -/
structure ExternalOps (Crs Handle Proof : Type) where
  get_crs_factory : Except String Crs
  create_builder_and_composer : Crs → Except String Handle
  create_proof : Handle → Except String Proof
  verify_proof : Handle → Proof → Except String Bool
  delete_builder_and_composer : Handle → Unit

/-- Observable outcome of one call to the adapter: `ret` is the returned
`const char*` (`none` = null pointer = success, `some e` = a non-null pointer
to the diagnostic text `e`); `validWrite` is the store through the `valid`
out-parameter (`none` when the store never executed); `trace` is the ordered
list of external calls issued. -/
structure CallResult where
  ret : Option String
  validWrite : Option Bool
  trace : List Event
  deriving DecidableEq, Repr

/-- Shallow embedding of `examples_simple_create_and_verify_proof` from
`src/barretenberg/examples/c_bind.cpp`.  Each external call is attempted in
the source's order; the first raised exception transfers control to the
`catch` block, which returns the exception's description, so no later
external call is issued and the store to `*valid` only happens once
`verify_proof` has returned. -/
def examples_simple_create_and_verify_proof {Crs Handle Proof : Type}
    (env : ExternalOps Crs Handle Proof) : CallResult :=
  match env.get_crs_factory with
  | .error e => ⟨some e, none, [.get_crs]⟩
  | .ok crs =>
    match env.create_builder_and_composer crs with
    | .error e => ⟨some e, none, [.get_crs, .create_bc]⟩
    | .ok ptrs =>
      match env.create_proof ptrs with
      | .error e => ⟨some e, none, [.get_crs, .create_bc, .create_proof_ev]⟩
      | .ok proof =>
        match env.verify_proof ptrs proof with
        | .error e =>
            ⟨some e, none,
              [.get_crs, .create_bc, .create_proof_ev, .verify_proof_ev]⟩
        | .ok b =>
            let _ := env.delete_builder_and_composer ptrs
            ⟨none, some b,
              [.get_crs, .create_bc, .create_proof_ev, .verify_proof_ev,
                .delete_bc]⟩

/-- Description of the first exception raised by the external workflow during
a call (steps acquire/build/prove/verify, in the order the adapter issues
them), or `none` when no step raises. -/
def first_failure {Crs Handle Proof : Type}
    (env : ExternalOps Crs Handle Proof) : Option String :=
  match env.get_crs_factory with
  | .error e => some e
  | .ok crs =>
    match env.create_builder_and_composer crs with
    | .error e => some e
    | .ok ptrs =>
      match env.create_proof ptrs with
      | .error e => some e
      | .ok proof =>
        match env.verify_proof ptrs proof with
        | .error e => some e
        | .ok _ => none

/-- `true` exactly when the workflow handle gets created during the call:
the setup acquisition returns and `create_builder_and_composer` returns a
handle. -/
def handle_created {Crs Handle Proof : Type}
    (env : ExternalOps Crs Handle Proof) : Bool :=
  match env.get_crs_factory with
  | .error _ => false
  | .ok crs =>
    match env.create_builder_and_composer crs with
    | .error _ => false
    | .ok _ => true

/-- `true` exactly when the call gets as far as a returned proof artifact:
setup acquisition, handle construction and `create_proof` all return. -/
def proof_produced {Crs Handle Proof : Type}
    (env : ExternalOps Crs Handle Proof) : Bool :=
  match env.get_crs_factory with
  | .error _ => false
  | .ok crs =>
    match env.create_builder_and_composer crs with
    | .error _ => false
    | .ok ptrs =>
      match env.create_proof ptrs with
      | .error _ => false
      | .ok _ => true

/-- The boolean `verify_proof` returns during the call, when the call reaches
`verify_proof` and that call returns; `none` when verification never executes
to completion (a failure at or before verification). -/
def verify_result {Crs Handle Proof : Type}
    (env : ExternalOps Crs Handle Proof) : Option Bool :=
  match env.get_crs_factory with
  | .error _ => none
  | .ok crs =>
    match env.create_builder_and_composer crs with
    | .error _ => none
    | .ok ptrs =>
      match env.create_proof ptrs with
      | .error _ => none
      | .ok proof =>
        match env.verify_proof ptrs proof with
        | .error _ => none
        | .ok b => some b

/-- Caller-visible state surrounding one call: the boolean the `valid`
pointer refers to, together with all other caller-visible state, abstracted
as a value of an arbitrary type `α` the adapter never touches. -/
structure CallerState (α : Type) where
  valid : Bool
  rest : α
  deriving DecidableEq, Repr

/-- One call of the adapter run against caller-visible state: the returned
diagnostic together with the state after the call.  The only store the
adapter performs into caller-visible state is `*valid = ...`: when that store
executes the slot holds the stored boolean, otherwise the slot keeps its
prior (unspecified, caller-provided) contents. -/
def call_adapter {Crs Handle Proof α : Type}
    (env : ExternalOps Crs Handle Proof) (s : CallerState α) :
    Option String × CallerState α :=
  let r := examples_simple_create_and_verify_proof env
  (r.ret, { valid := r.validWrite.getD s.valid, rest := s.rest })

/-- Two consecutive calls of the adapter against the same external
collaborators (in particular, reusing the same global setup-parameter
provider, whose behaviour within one call is the fixed `get_crs_factory`
field). -/
def call_twice {Crs Handle Proof : Type}
    (env : ExternalOps Crs Handle Proof) : CallResult × CallResult :=
  (examples_simple_create_and_verify_proof env,
    examples_simple_create_and_verify_proof env)

/-- Concrete external behaviour with every step returning and `verify_proof`
returning `b`; used to evaluate the adapter at explicit inputs. -/
def env_ok (b : Bool) : ExternalOps Unit Unit Unit where
  get_crs_factory := .ok ()
  create_builder_and_composer := fun _ => .ok ()
  create_proof := fun _ => .ok ()
  verify_proof := fun _ _ => .ok b
  delete_builder_and_composer := fun _ => ()

/-- Concrete external behaviour where `create_builder_and_composer` raises. -/
def env_fail_create : ExternalOps Unit Unit Unit where
  get_crs_factory := .ok ()
  create_builder_and_composer := fun _ => .error "builder failed"
  create_proof := fun _ => .ok ()
  verify_proof := fun _ _ => .ok true
  delete_builder_and_composer := fun _ => ()

/-- Concrete external behaviour where `create_proof` raises after the handle
was created. -/
def env_fail_prove : ExternalOps Unit Unit Unit where
  get_crs_factory := .ok ()
  create_builder_and_composer := fun _ => .ok ()
  create_proof := fun _ => .error "prover failed"
  verify_proof := fun _ _ => .ok true
  delete_builder_and_composer := fun _ => ()

/-- Concrete external behaviour where `verify_proof` raises after the proof
was produced. -/
def env_fail_verify : ExternalOps Unit Unit Unit where
  get_crs_factory := .ok ()
  create_builder_and_composer := fun _ => .ok ()
  create_proof := fun _ => .ok ()
  verify_proof := fun _ _ => .error "verifier failed"
  delete_builder_and_composer := fun _ => ()

/-- Exhaustive case analysis on how far one call of the external workflow
progresses: the setup acquisition raises, or the handle construction raises,
or the proving step raises, or the verification step raises, or every step
returns. -/
lemma workflow_cases {Crs Handle Proof : Type} (env : ExternalOps Crs Handle Proof) :
    (∃ e, env.get_crs_factory = .error e) ∨
    (∃ crs e, env.get_crs_factory = .ok crs ∧
      env.create_builder_and_composer crs = .error e) ∨
    (∃ crs ptrs e, env.get_crs_factory = .ok crs ∧
      env.create_builder_and_composer crs = .ok ptrs ∧
      env.create_proof ptrs = .error e) ∨
    (∃ crs ptrs proof e, env.get_crs_factory = .ok crs ∧
      env.create_builder_and_composer crs = .ok ptrs ∧
      env.create_proof ptrs = .ok proof ∧
      env.verify_proof ptrs proof = .error e) ∨
    (∃ crs ptrs proof b, env.get_crs_factory = .ok crs ∧
      env.create_builder_and_composer crs = .ok ptrs ∧
      env.create_proof ptrs = .ok proof ∧
      env.verify_proof ptrs proof = .ok b) := by
  rcases hg : env.get_crs_factory with e | crs
  · exact .inl ⟨e, rfl⟩
  rcases hc : env.create_builder_and_composer crs with e | ptrs
  · exact .inr (.inl ⟨crs, e, rfl, hc⟩)
  rcases hp : env.create_proof ptrs with e | proof
  · exact .inr (.inr (.inl ⟨crs, ptrs, e, rfl, hc, hp⟩))
  rcases hv : env.verify_proof ptrs proof with e | b
  · exact .inr (.inr (.inr (.inl ⟨crs, ptrs, proof, e, rfl, hc, hp, hv⟩)))
  · exact .inr (.inr (.inr (.inr ⟨crs, ptrs, proof, b, rfl, hc, hp, hv⟩)))

/-- Behaviour of the call when the setup acquisition raises `e`. -/
lemma run_crs_error_spec {Crs Handle Proof : Type} {env : ExternalOps Crs Handle Proof}
    {e : String} (hg : env.get_crs_factory = .error e) :
    examples_simple_create_and_verify_proof env = ⟨some e, none, [.get_crs]⟩ ∧
    first_failure env = some e ∧ handle_created env = false ∧
    verify_result env = none := by
  refine ⟨?_, ?_, ?_, ?_⟩ <;>
    simp [examples_simple_create_and_verify_proof, first_failure,
      handle_created, verify_result, hg]

/-- Behaviour of the call when `create_builder_and_composer` raises `e`. -/
lemma run_create_error_spec {Crs Handle Proof : Type} {env : ExternalOps Crs Handle Proof}
    {crs : Crs} {e : String} (hg : env.get_crs_factory = .ok crs)
    (hc : env.create_builder_and_composer crs = .error e) :
    examples_simple_create_and_verify_proof env
      = ⟨some e, none, [.get_crs, .create_bc]⟩ ∧
    first_failure env = some e ∧ handle_created env = false ∧
    verify_result env = none := by
  refine ⟨?_, ?_, ?_, ?_⟩ <;>
    simp [examples_simple_create_and_verify_proof, first_failure,
      handle_created, verify_result, hg, hc]

/-- Behaviour of the call when the handle was created and `create_proof`
raises `e`. -/
lemma run_prove_error_spec {Crs Handle Proof : Type} {env : ExternalOps Crs Handle Proof}
    {crs : Crs} {ptrs : Handle} {e : String} (hg : env.get_crs_factory = .ok crs)
    (hc : env.create_builder_and_composer crs = .ok ptrs)
    (hp : env.create_proof ptrs = .error e) :
    examples_simple_create_and_verify_proof env
      = ⟨some e, none, [.get_crs, .create_bc, .create_proof_ev]⟩ ∧
    first_failure env = some e ∧ handle_created env = true ∧
    verify_result env = none := by
  refine ⟨?_, ?_, ?_, ?_⟩ <;>
    simp [examples_simple_create_and_verify_proof, first_failure,
      handle_created, verify_result, hg, hc, hp]

/-- Behaviour of the call when the proof was produced and `verify_proof`
raises `e`. -/
lemma run_verify_error_spec {Crs Handle Proof : Type} {env : ExternalOps Crs Handle Proof}
    {crs : Crs} {ptrs : Handle} {proof : Proof} {e : String}
    (hg : env.get_crs_factory = .ok crs)
    (hc : env.create_builder_and_composer crs = .ok ptrs)
    (hp : env.create_proof ptrs = .ok proof)
    (hv : env.verify_proof ptrs proof = .error e) :
    examples_simple_create_and_verify_proof env
      = ⟨some e, none, [.get_crs, .create_bc, .create_proof_ev, .verify_proof_ev]⟩ ∧
    first_failure env = some e ∧ handle_created env = true ∧
    verify_result env = none := by
  refine ⟨?_, ?_, ?_, ?_⟩ <;>
    simp [examples_simple_create_and_verify_proof, first_failure,
      handle_created, verify_result, hg, hc, hp, hv]

/-- Behaviour of the call when every external step returns and `verify_proof`
returns `b`. -/
lemma run_ok_spec {Crs Handle Proof : Type} {env : ExternalOps Crs Handle Proof}
    {crs : Crs} {ptrs : Handle} {proof : Proof} {b : Bool}
    (hg : env.get_crs_factory = .ok crs)
    (hc : env.create_builder_and_composer crs = .ok ptrs)
    (hp : env.create_proof ptrs = .ok proof)
    (hv : env.verify_proof ptrs proof = .ok b) :
    examples_simple_create_and_verify_proof env
      = ⟨none, some b,
          [.get_crs, .create_bc, .create_proof_ev, .verify_proof_ev, .delete_bc]⟩ ∧
    first_failure env = none ∧ handle_created env = true ∧
    verify_result env = some b := by
  refine ⟨?_, ?_, ?_, ?_⟩ <;>
    simp [examples_simple_create_and_verify_proof, first_failure,
      handle_created, verify_result, hg, hc, hp, hv]

/-- The returned diagnostic of a call is exactly the description of the first
failure the external workflow raised, and the null pointer when no step
raised. -/
lemma run_ret {Crs Handle Proof : Type} (env : ExternalOps Crs Handle Proof) :
    (examples_simple_create_and_verify_proof env).ret = first_failure env := by
  rcases workflow_cases env with ⟨e, hg⟩ | ⟨crs, e, hg, hc⟩
    | ⟨crs, ptrs, e, hg, hc, hp⟩ | ⟨crs, ptrs, proof, e, hg, hc, hp, hv⟩
    | ⟨crs, ptrs, proof, b, hg, hc, hp, hv⟩
  · rw [(run_crs_error_spec hg).1, (run_crs_error_spec hg).2.1]
  · rw [(run_create_error_spec hg hc).1, (run_create_error_spec hg hc).2.1]
  · rw [(run_prove_error_spec hg hc hp).1, (run_prove_error_spec hg hc hp).2.1]
  · rw [(run_verify_error_spec hg hc hp hv).1,
      (run_verify_error_spec hg hc hp hv).2.1]
  · rw [(run_ok_spec hg hc hp hv).1, (run_ok_spec hg hc hp hv).2.1]

/-- The store through the `valid` out-parameter during a call is exactly the
boolean `verify_proof` returned, and absent when verification never executed
to completion. -/
lemma run_validWrite {Crs Handle Proof : Type} (env : ExternalOps Crs Handle Proof) :
    (examples_simple_create_and_verify_proof env).validWrite = verify_result env := by
  rcases workflow_cases env with ⟨e, hg⟩ | ⟨crs, e, hg, hc⟩
    | ⟨crs, ptrs, e, hg, hc, hp⟩ | ⟨crs, ptrs, proof, e, hg, hc, hp, hv⟩
    | ⟨crs, ptrs, proof, b, hg, hc, hp, hv⟩
  · rw [(run_crs_error_spec hg).1, (run_crs_error_spec hg).2.2.2]
  · rw [(run_create_error_spec hg hc).1, (run_create_error_spec hg hc).2.2.2]
  · rw [(run_prove_error_spec hg hc hp).1, (run_prove_error_spec hg hc hp).2.2.2]
  · rw [(run_verify_error_spec hg hc hp hv).1,
      (run_verify_error_spec hg hc hp hv).2.2.2]
  · rw [(run_ok_spec hg hc hp hv).1, (run_ok_spec hg hc hp hv).2.2.2]

/-- No step of the workflow raises exactly when verification executes and
returns a boolean. -/
lemma first_failure_eq_none_iff {Crs Handle Proof : Type}
    (env : ExternalOps Crs Handle Proof) :
    first_failure env = none ↔ (verify_result env).isSome = true := by
  rcases workflow_cases env with ⟨e, hg⟩ | ⟨crs, e, hg, hc⟩
    | ⟨crs, ptrs, e, hg, hc, hp⟩ | ⟨crs, ptrs, proof, e, hg, hc, hp, hv⟩
    | ⟨crs, ptrs, proof, b, hg, hc, hp, hv⟩
  · rw [(run_crs_error_spec hg).2.1, (run_crs_error_spec hg).2.2.2]; simp
  · rw [(run_create_error_spec hg hc).2.1, (run_create_error_spec hg hc).2.2.2]; simp
  · rw [(run_prove_error_spec hg hc hp).2.1,
      (run_prove_error_spec hg hc hp).2.2.2]; simp
  · rw [(run_verify_error_spec hg hc hp hv).2.1,
      (run_verify_error_spec hg hc hp hv).2.2.2]; simp
  · rw [(run_ok_spec hg hc hp hv).2.1, (run_ok_spec hg hc hp hv).2.2.2]; simp

/-- Full observable behaviour of a call in which no external step raises. -/
lemma run_no_failure {Crs Handle Proof : Type} {env : ExternalOps Crs Handle Proof}
    (h : first_failure env = none) :
    examples_simple_create_and_verify_proof env
      = ⟨none, verify_result env,
          [.get_crs, .create_bc, .create_proof_ev, .verify_proof_ev, .delete_bc]⟩ := by
  rcases workflow_cases env with ⟨e, hg⟩ | ⟨crs, e, hg, hc⟩
    | ⟨crs, ptrs, e, hg, hc, hp⟩ | ⟨crs, ptrs, proof, e, hg, hc, hp, hv⟩
    | ⟨crs, ptrs, proof, b, hg, hc, hp, hv⟩
  · rw [(run_crs_error_spec hg).2.1] at h; exact absurd h (by simp)
  · rw [(run_create_error_spec hg hc).2.1] at h; exact absurd h (by simp)
  · rw [(run_prove_error_spec hg hc hp).2.1] at h; exact absurd h (by simp)
  · rw [(run_verify_error_spec hg hc hp hv).2.1] at h; exact absurd h (by simp)
  · rw [(run_ok_spec hg hc hp hv).1, (run_ok_spec hg hc hp hv).2.2.2]

/-- Claim C1: any failure raised by the external workflow during a call — at
setup acquisition, handle construction, proving or verification — is
intercepted at the adapter boundary and converted into a returned non-null
diagnostic equal to that failure's description; the embedding being a total
function into `CallResult`, the failure never escapes the call boundary. -/
theorem C1_failure_intercepted {Crs Handle Proof : Type}
    (env : ExternalOps Crs Handle Proof) (e : String)
    (h : first_failure env = some e) :
    (examples_simple_create_and_verify_proof env).ret = some e := by
  rw [run_ret]; exact h

/-- Witness for C1 at a concrete behaviour whose proving step raises. -/
theorem C1_witness :
    (examples_simple_create_and_verify_proof env_fail_prove).ret
      = some "prover failed" :=
  C1_failure_intercepted env_fail_prove "prover failed" rfl

/-- Claim C2 counterexample: at a concrete external behaviour whose
`create_proof` raises after the handle was created, the adapter returns
without ever calling `delete_builder_and_composer`: the handle is created yet
released zero times, refuting release on every post-creation failure path. -/
theorem C2_counterexample :
    handle_created env_fail_prove = true ∧
    Event.delete_bc ∉
      (examples_simple_create_and_verify_proof env_fail_prove).trace := by
  decide

/-- Claim C2 (amended): once the workflow handle is created, it is released
exactly once before the adapter returns on calls where no step raises; on a
post-creation failure path (a failure raised in `create_proof` or
`verify_proof`) the handle is not released at all. -/
theorem C2_amended_release {Crs Handle Proof : Type}
    (env : ExternalOps Crs Handle Proof) :
    (first_failure env = none →
      (examples_simple_create_and_verify_proof env).trace.count Event.delete_bc
        = 1) ∧
    (handle_created env = true → first_failure env ≠ none →
      (examples_simple_create_and_verify_proof env).trace.count Event.delete_bc
        = 0) := by
  constructor
  · intro h
    rw [run_no_failure h]
    rfl
  · intro hc hf
    rcases workflow_cases env with ⟨e, hg⟩ | ⟨crs, e, hg, hcb⟩
      | ⟨crs, ptrs, e, hg, hcb, hp⟩ | ⟨crs, ptrs, proof, e, hg, hcb, hp, hv⟩
      | ⟨crs, ptrs, proof, b, hg, hcb, hp, hv⟩
    · rw [(run_crs_error_spec hg).2.2.1] at hc; exact absurd hc (by decide)
    · rw [(run_create_error_spec hg hcb).2.2.1] at hc; exact absurd hc (by decide)
    · rw [(run_prove_error_spec hg hcb hp).1]; rfl
    · rw [(run_verify_error_spec hg hcb hp hv).1]; rfl
    · rw [(run_ok_spec hg hcb hp hv).2.1] at hf; exact absurd rfl hf

/-- Witness for C2 (amended): one release on an all-returning behaviour, no
release on a concrete post-creation failure. -/
theorem C2_witness :
    (examples_simple_create_and_verify_proof (env_ok true)).trace.count
      Event.delete_bc = 1 ∧
    (examples_simple_create_and_verify_proof env_fail_prove).trace.count
      Event.delete_bc = 0 :=
  ⟨(C2_amended_release (env_ok true)).1 rfl,
    (C2_amended_release env_fail_prove).2 rfl (by decide)⟩

/-- Claim C3: on a call in which no external step raises, the adapter issues
exactly the sequence acquire-setup, build-handle, create-proof, verify-proof,
release-handle, stores the boolean verification result through the `valid`
out-parameter, and returns the null diagnostic. -/
theorem C3_success_sequence {Crs Handle Proof : Type}
    (env : ExternalOps Crs Handle Proof) (h : first_failure env = none) :
    (examples_simple_create_and_verify_proof env).trace
      = [.get_crs, .create_bc, .create_proof_ev, .verify_proof_ev, .delete_bc] ∧
    (examples_simple_create_and_verify_proof env).validWrite
      = verify_result env ∧
    (verify_result env).isSome = true ∧
    (examples_simple_create_and_verify_proof env).ret = none := by
  rw [run_no_failure h]
  exact ⟨rfl, rfl, (first_failure_eq_none_iff env).mp h, rfl⟩

/-- Witness for C3 at a concrete all-returning behaviour. -/
theorem C3_witness :
    (examples_simple_create_and_verify_proof (env_ok true)).trace
      = [.get_crs, .create_bc, .create_proof_ev, .verify_proof_ev, .delete_bc] ∧
    (examples_simple_create_and_verify_proof (env_ok true)).validWrite
      = verify_result (env_ok true) ∧
    (verify_result (env_ok true)).isSome = true ∧
    (examples_simple_create_and_verify_proof (env_ok true)).ret = none :=
  C3_success_sequence (env_ok true) rfl

/-- Claim C4: the boolean stored through the `valid` out-parameter is exactly
the result of the verification step, and is stored exactly when verification
executes and returns; a failure raised before verification completes leaves
the out-parameter unwritten. -/
theorem C4_valid_written_iff_verified {Crs Handle Proof : Type}
    (env : ExternalOps Crs Handle Proof) :
    (examples_simple_create_and_verify_proof env).validWrite
      = verify_result env ∧
    ((examples_simple_create_and_verify_proof env).validWrite.isSome = true
      ↔ (verify_result env).isSome = true) :=
  ⟨run_validWrite env, by rw [run_validWrite env]⟩

/-- Claim C5: when verification executes and returns `false`, the call is a
success, not an error: the adapter stores `false` through the `valid`
out-parameter and returns the null diagnostic. -/
theorem C5_invalid_proof_is_success {Crs Handle Proof : Type}
    (env : ExternalOps Crs Handle Proof)
    (h : verify_result env = some false) :
    (examples_simple_create_and_verify_proof env).validWrite = some false ∧
    (examples_simple_create_and_verify_proof env).ret = none := by
  have hn : first_failure env = none :=
    (first_failure_eq_none_iff env).mpr (by rw [h]; rfl)
  exact ⟨by rw [run_validWrite, h], by rw [run_ret, hn]⟩

/-- Witness for C5 at a concrete behaviour whose verification returns
`false`. -/
theorem C5_witness :
    (examples_simple_create_and_verify_proof (env_ok false)).validWrite
      = some false ∧
    (examples_simple_create_and_verify_proof (env_ok false)).ret = none :=
  C5_invalid_proof_is_success (env_ok false) rfl

/-- Claim C6: the adapter's only caller-visible side effect is the store
through the `valid` out-parameter — performed exactly when verification
executes and returns, with the verification result — besides the
acquisition/release traffic recorded in the call's event trace; every other
part of the caller-visible state is returned unchanged. -/
theorem C6_frame {Crs Handle Proof α : Type}
    (env : ExternalOps Crs Handle Proof) (s : CallerState α) :
    (call_adapter env s).2.rest = s.rest ∧
    ((call_adapter env s).2.valid = s.valid ∨
      ∃ b, verify_result env = some b ∧ (call_adapter env s).2.valid = b) := by
  refine ⟨rfl, ?_⟩
  rcases (verify_result env).eq_none_or_eq_some with hv | ⟨b, hv⟩
  · left
    simp [call_adapter, run_validWrite env, hv]
  · right
    exact ⟨b, hv, by simp [call_adapter, run_validWrite env, hv]⟩

/-- Claim C7: two consecutive calls against the same external collaborators —
in particular reusing the same global setup-parameter provider — behave
identically: when the first call returns the null diagnostic, so does the
second, and the two calls' full observable outcomes coincide. -/
theorem C7_repeat_calls_identical {Crs Handle Proof : Type}
    (env : ExternalOps Crs Handle Proof)
    (h : (call_twice env).1.ret = none) :
    (call_twice env).2.ret = none ∧ (call_twice env).1 = (call_twice env).2 :=
  ⟨h, rfl⟩

/-- Witness for C7 at a concrete all-returning behaviour. -/
theorem C7_witness :
    (call_twice (env_ok true)).2.ret = none ∧
    (call_twice (env_ok true)).1 = (call_twice (env_ok true)).2 :=
  C7_repeat_calls_identical (env_ok true) rfl

/-- Claim C8: when no external step raises, the value the entry point returns
is exactly the null pointer (`none` in the embedding), never a non-null
pointer to an empty diagnostic, so the caller can test success by a null
check alone. -/
theorem C8_success_is_null_pointer {Crs Handle Proof : Type}
    (env : ExternalOps Crs Handle Proof) (h : first_failure env = none) :
    (examples_simple_create_and_verify_proof env).ret = none := by
  rw [run_ret]; exact h

/-- Witness for C8 at a concrete all-returning behaviour. -/
theorem C8_witness :
    (examples_simple_create_and_verify_proof (env_ok false)).ret = none :=
  C8_success_is_null_pointer (env_ok false) rfl

/-- Claim C9: a failure at a workflow step prevents every later external
call in that call of the adapter: after a failure in
`create_builder_and_composer` no `create_proof`, `verify_proof` or
`delete_builder_and_composer` call is issued; after a failure in
`create_proof` no `verify_proof` or `delete_builder_and_composer` call is
issued; after a failure in `verify_proof` no `delete_builder_and_composer`
call is issued — in each case the adapter proceeds directly to returning the
failure's description. -/
theorem C9_failure_stops_workflow {Crs Handle Proof : Type}
    (env : ExternalOps Crs Handle Proof) :
    (∀ crs e, env.get_crs_factory = .ok crs →
      env.create_builder_and_composer crs = .error e →
      Event.create_proof_ev
          ∉ (examples_simple_create_and_verify_proof env).trace ∧
      Event.verify_proof_ev
          ∉ (examples_simple_create_and_verify_proof env).trace ∧
      Event.delete_bc ∉ (examples_simple_create_and_verify_proof env).trace ∧
      (examples_simple_create_and_verify_proof env).ret = some e) ∧
    (∀ crs ptrs e, env.get_crs_factory = .ok crs →
      env.create_builder_and_composer crs = .ok ptrs →
      env.create_proof ptrs = .error e →
      Event.verify_proof_ev
          ∉ (examples_simple_create_and_verify_proof env).trace ∧
      Event.delete_bc ∉ (examples_simple_create_and_verify_proof env).trace ∧
      (examples_simple_create_and_verify_proof env).ret = some e) ∧
    (∀ crs ptrs proof e, env.get_crs_factory = .ok crs →
      env.create_builder_and_composer crs = .ok ptrs →
      env.create_proof ptrs = .ok proof →
      env.verify_proof ptrs proof = .error e →
      Event.delete_bc ∉ (examples_simple_create_and_verify_proof env).trace ∧
      (examples_simple_create_and_verify_proof env).ret = some e) := by
  refine ⟨?_, ?_, ?_⟩
  · intro crs e hg hc
    rw [(run_create_error_spec hg hc).1]
    exact ⟨by simp, by simp, by simp, rfl⟩
  · intro crs ptrs e hg hc hp
    rw [(run_prove_error_spec hg hc hp).1]
    exact ⟨by simp, by simp, rfl⟩
  · intro crs ptrs proof e hg hc hp hv
    rw [(run_verify_error_spec hg hc hp hv).1]
    exact ⟨by simp, rfl⟩

/-- Witness for C9 at concrete behaviours failing at each post-setup step. -/
theorem C9_witness :
    (Event.create_proof_ev
        ∉ (examples_simple_create_and_verify_proof env_fail_create).trace ∧
      Event.verify_proof_ev
        ∉ (examples_simple_create_and_verify_proof env_fail_create).trace ∧
      Event.delete_bc
        ∉ (examples_simple_create_and_verify_proof env_fail_create).trace ∧
      (examples_simple_create_and_verify_proof env_fail_create).ret
        = some "builder failed") ∧
    (Event.verify_proof_ev
        ∉ (examples_simple_create_and_verify_proof env_fail_prove).trace ∧
      Event.delete_bc
        ∉ (examples_simple_create_and_verify_proof env_fail_prove).trace ∧
      (examples_simple_create_and_verify_proof env_fail_prove).ret
        = some "prover failed") ∧
    (Event.delete_bc
        ∉ (examples_simple_create_and_verify_proof env_fail_verify).trace ∧
      (examples_simple_create_and_verify_proof env_fail_verify).ret
        = some "verifier failed") :=
  ⟨(C9_failure_stops_workflow env_fail_create).1 () "builder failed" rfl rfl,
    (C9_failure_stops_workflow env_fail_prove).2.1 () () "prover failed"
      rfl rfl rfl,
    (C9_failure_stops_workflow env_fail_verify).2.2 () () () "verifier failed"
      rfl rfl rfl rfl⟩

/-- Claim C10: with the behaviour of the external collaborators fixed, two
calls of the entry point produce an identical diagnostic return value and an
identical effect on the `valid` out-parameter: the adapter introduces no
nondeterminism of its own. -/
theorem C10_no_nondeterminism {Crs Handle Proof : Type}
    (env : ExternalOps Crs Handle Proof) (r1 r2 : CallResult)
    (h1 : r1 = examples_simple_create_and_verify_proof env)
    (h2 : r2 = examples_simple_create_and_verify_proof env) :
    r1.ret = r2.ret ∧ r1.validWrite = r2.validWrite := by
  subst h1; subst h2; exact ⟨rfl, rfl⟩

/-- Witness for C10 at a concrete all-returning behaviour. -/
theorem C10_witness :
    (examples_simple_create_and_verify_proof (env_ok true)).ret
      = (examples_simple_create_and_verify_proof (env_ok true)).ret ∧
    (examples_simple_create_and_verify_proof (env_ok true)).validWrite
      = (examples_simple_create_and_verify_proof (env_ok true)).validWrite :=
  C10_no_nondeterminism (env_ok true) _ _ rfl rfl
